import Mathlib

/-!
Shallow embedding of the TravelShield ensemble score predictor
(`src/models/travel_health_score_predictor.py`) and proofs about its
feature extraction, ensemble scoring, uncertainty banding, recommendation
tiers, failure fallback and top-reason selection.

Conventions of the embedding:
* Python floats are modelled as rationals; the decision logic under study
  (defaults, weighted sums, clipping, threshold comparisons) is exact
  arithmetic in the source, so rationals are a faithful carrier.
* Python dict fields that may be absent are `Option` fields; `d.get(k, v)`
  becomes `Option.getD`.
* The external regressors (XGBoost, LightGBM, MLP), the fitted scaler and
  the SHAP tree explainer are opaque library calls; they are modelled as
  function-valued slots of a `ModelState`, each returning `Except String`
  so that a raised library exception is representable.
-/

namespace TravelShield

/-- The `probabilities` sub-dict of the Naive-Bayes output: keys low,
medium, high, any of which may be absent. -/
structure RiskProbs where
  low : Option ℚ
  medium : Option ℚ
  high : Option ℚ
deriving DecidableEq

/-- The `nb` upstream output: may or may not carry a `probabilities` key. -/
structure NbOutput where
  probabilities : Option RiskProbs
deriving DecidableEq

/-- The `slots` sub-dict of the BERT output. -/
structure BertSlots where
  symptoms : Option (List String)
  duration : Option ℚ
  severity : Option ℚ
deriving DecidableEq

/-- The `bert` upstream output: may or may not carry a `slots` key. -/
structure BertOutput where
  slots : Option BertSlots
deriving DecidableEq

/-- The `probabilities` sub-dict of the sentiment output; only `fit` is read. -/
structure SentimentProbs where
  fit : Option ℚ
deriving DecidableEq

/-- The `sentiment` upstream output. -/
structure SentimentOutput where
  probabilities : Option SentimentProbs
  confidence : Option ℚ
deriving DecidableEq

/-- The combined `model_outputs` dict handed to `_extract_features`:
each of the three sub-records may be absent. -/
structure UpstreamOutputs where
  nb : Option NbOutput
  bert : Option BertOutput
  sentiment : Option SentimentOutput
deriving DecidableEq

/-- The `destination` sub-dict of the context. -/
structure Destination where
  disease_prevalence : Option ℚ
  weather_risk : Option ℚ
  altitude_meters : Option ℚ
  air_quality_index : Option ℚ
deriving DecidableEq

/-- The `user` sub-dict of the context. -/
structure UserRecord where
  age_group : Option ℚ
  vaccination_coverage : Option ℚ
  has_chronic_disease : Option Bool
deriving DecidableEq

/-- The `context` dict handed to `_extract_features`. -/
structure Context where
  destination : Option Destination
  user : Option UserRecord
  trip_duration_days : Option ℚ
deriving DecidableEq

/-- Source lines 144-153: the NB risk probability block of
`_extract_features`. The 0.33 defaults fire only when the `nb` key or its
`probabilities` key is absent; individual absent keys default to 0. -/
def nb_risk_features (model_outputs : UpstreamOutputs) : List ℚ :=
  match model_outputs.nb with
  | some nb =>
    match nb.probabilities with
    | some probs => [probs.low.getD 0, probs.medium.getD 0, probs.high.getD 0]
    | none => [33/100, 33/100, 33/100]
  | none => [33/100, 33/100, 33/100]

/-- Source lines 155-164: the BERT slot block of `_extract_features`. -/
def bert_slot_features (model_outputs : UpstreamOutputs) : List ℚ :=
  match model_outputs.bert with
  | some bert =>
    match bert.slots with
    | some slots =>
      [((slots.symptoms.getD []).length : ℚ), slots.duration.getD 0, slots.severity.getD (1/2)]
    | none => [0, 0, 1/2]
  | none => [0, 0, 1/2]

/-- Source lines 166-174: the sentiment block of `_extract_features`.
An absent `probabilities` key behaves like an empty dict. -/
def sentiment_features (model_outputs : UpstreamOutputs) : List ℚ :=
  match model_outputs.sentiment with
  | some s =>
    [(s.probabilities.bind SentimentProbs.fit).getD (33/100), s.confidence.getD (1/2)]
  | none => [33/100, 1/2]

/-- Source lines 176-183: the destination context block of
`_extract_features`; altitude is divided by 1000 and air quality by 100. -/
def destination_features (context : Context) : List ℚ :=
  [(context.destination.bind Destination.disease_prevalence).getD (1/2),
   (context.destination.bind Destination.weather_risk).getD (3/10),
   (context.destination.bind Destination.altitude_meters).getD 0 / 1000,
   (context.destination.bind Destination.air_quality_index).getD 50 / 100]

/-- Source lines 185-191: the user static block of `_extract_features`. -/
def user_static_features (context : Context) : List ℚ :=
  [(context.user.bind UserRecord.age_group).getD 3,
   (context.user.bind UserRecord.vaccination_coverage).getD (7/10),
   context.trip_duration_days.getD 7]

/-- Source line 199: `1.0 if user.get('has_chronic_disease', False) else 0.0`. -/
def chronic_indicator (context : Context) : ℚ :=
  if (context.user.bind UserRecord.has_chronic_disease).getD false then 1 else 0

/-- Source lines 131-202, `TravelHealthScoreModel._extract_features`.
The two interaction terms index the already-built list exactly as the
source does: positions 2, 9 and 14. (In the source, position 9 holds the
weather-risk value and position 14 the trip-duration value, although the
inline comments there call them disease prevalence and age group.) -/
def _extract_features (model_outputs : UpstreamOutputs) (context : Context) : List ℚ :=
  let features := nb_risk_features model_outputs ++ bert_slot_features model_outputs ++
    sentiment_features model_outputs ++ destination_features context ++
    user_static_features context
  let nb_high := features.getD 2 0
  let disease_prev := features.getD 9 0
  let features2 := features ++ [nb_high * disease_prev]
  let age := features2.getD 14 0
  features2 ++ [age * chronic_indicator context * (1/10)]

/-- The two interaction terms of `_extract_features`, expressed against the
15-element base list (position 14 of the 16-element intermediate list is
inside the base list, so the two readings agree). -/
def interaction_features (model_outputs : UpstreamOutputs) (context : Context) : List ℚ :=
  let features := nb_risk_features model_outputs ++ bert_slot_features model_outputs ++
    sentiment_features model_outputs ++ destination_features context ++
    user_static_features context
  [features.getD 2 0 * features.getD 9 0,
   features.getD 14 0 * chronic_indicator context * (1/10)]

/-- Source lines 318-329, `TravelHealthScoreModel._generate_recommendation`. -/
def _generate_recommendation (score upper_bound : ℚ) : String :=
  if score ≥ 80 then
    "PROCEED: Low risk. Follow standard travel precautions."
  else if score ≥ 60 then
    if upper_bound ≥ 70 then
      "PROCEED WITH CAUTION: Moderate risk. Extra precautions recommended."
    else
      "CONSULT DOCTOR: Borderline risk. Medical consultation advised before travel."
  else if score ≥ 40 then
    "POSTPONE: High risk. Significant concerns detected. Consult healthcare provider."
  else
    "DO NOT TRAVEL: Critical risk. Travel strongly discouraged. Immediate medical attention required."

/-- An `UpstreamOutputs` with all three sub-records absent. -/
def empty_upstream : UpstreamOutputs := ⟨none, none, none⟩

/-- A `Context` with every field absent. -/
def empty_context : Context := ⟨none, none, none⟩

theorem nb_risk_features_length (model_outputs : UpstreamOutputs) :
    (nb_risk_features model_outputs).length = 3 := by
  rcases model_outputs with ⟨_ | ⟨_ | probs⟩, b, s⟩ <;> rfl

theorem bert_slot_features_length (model_outputs : UpstreamOutputs) :
    (bert_slot_features model_outputs).length = 3 := by
  rcases model_outputs with ⟨n, _ | ⟨_ | slots⟩, s⟩ <;> rfl

theorem sentiment_features_length (model_outputs : UpstreamOutputs) :
    (sentiment_features model_outputs).length = 2 := by
  rcases model_outputs with ⟨n, b, _ | s⟩ <;> rfl

theorem destination_features_length (context : Context) :
    (destination_features context).length = 4 := rfl

theorem user_static_features_length (context : Context) :
    (user_static_features context).length = 3 := rfl

theorem base_features_length (model_outputs : UpstreamOutputs) (context : Context) :
    (nb_risk_features model_outputs ++ bert_slot_features model_outputs ++
      sentiment_features model_outputs ++ destination_features context ++
      user_static_features context).length = 15 := by
  simp [List.length_append, nb_risk_features_length, bert_slot_features_length,
    sentiment_features_length, destination_features_length, user_static_features_length]

theorem extract_features_eq_base_append (model_outputs : UpstreamOutputs) (context : Context) :
    _extract_features model_outputs context =
      nb_risk_features model_outputs ++ bert_slot_features model_outputs ++
      sentiment_features model_outputs ++ destination_features context ++
      user_static_features context ++ interaction_features model_outputs context := by
  have hlen := base_features_length model_outputs context
  simp only [_extract_features, interaction_features]
  rw [List.getD_append _ _ 0 14 (by rw [hlen]; norm_num)]
  simp [List.append_assoc]

/-- Claim C2: for every pair of inputs, feature extraction is total (no
exception: it is a Lean function) and returns exactly 17 rationals, laid
out as the five fixed-order groups (3 risk, 3 slot, 2 sentiment,
4 destination, 3 user/trip) followed by the 2 interaction terms, each
group substituting its documented default for absent fields by
definition. -/
theorem extract_features_shape (model_outputs : UpstreamOutputs) (context : Context) :
    (_extract_features model_outputs context).length = 17 ∧
    (nb_risk_features model_outputs).length = 3 ∧
    (bert_slot_features model_outputs).length = 3 ∧
    (sentiment_features model_outputs).length = 2 ∧
    (destination_features context).length = 4 ∧
    (user_static_features context).length = 3 ∧
    (interaction_features model_outputs context).length = 2 ∧
    _extract_features model_outputs context =
      nb_risk_features model_outputs ++ bert_slot_features model_outputs ++
      sentiment_features model_outputs ++ destination_features context ++
      user_static_features context ++ interaction_features model_outputs context := by
  refine ⟨?_, nb_risk_features_length model_outputs, bert_slot_features_length model_outputs,
    sentiment_features_length model_outputs, destination_features_length context,
    user_static_features_length context, rfl, extract_features_eq_base_append model_outputs context⟩
  rw [extract_features_eq_base_append model_outputs context]
  simp [List.length_append, nb_risk_features_length, bert_slot_features_length,
    sentiment_features_length, destination_features_length, user_static_features_length,
    interaction_features]

/-- Claim C3 (evaluation at the failing input): with all sub-records and
context fields absent, extraction returns the default vector whose
interaction term at position 15 is (33/100) * (3/10) = 99/1000, because
the source multiplies position 2 by position 9 — the weather-risk slot —
rather than the disease-prevalence slot at position 8; the value 165/1000
claimed by the specification is not produced. -/
theorem extract_features_empty_mismatch :
    _extract_features empty_upstream empty_context =
      [33/100, 33/100, 33/100, 0, 0, 1/2, 33/100, 1/2, 1/2, 3/10, 0, 1/2, 3, 7/10, 7,
        99/1000, 0] ∧
    _extract_features empty_upstream empty_context ≠
      [33/100, 33/100, 33/100, 0, 0, 1/2, 33/100, 1/2, 1/2, 3/10, 0, 1/2, 3, 7/10, 7,
        165/1000, 0] := by
  constructor
  · norm_num [_extract_features, nb_risk_features, bert_slot_features, sentiment_features,
      destination_features, user_static_features, chronic_indicator, empty_upstream,
      empty_context, List.getD]
  · intro hcontra
    norm_num [_extract_features, nb_risk_features, bert_slot_features, sentiment_features,
      destination_features, user_static_features, chronic_indicator, empty_upstream,
      empty_context, List.getD] at hcontra

/-- Claim C10: the near-uniform 0.33 defaults fire only when the risk
sub-record or its probabilities dict is absent; a present probabilities
dict substitutes 0 for each individually absent key, so a present-but-empty
probabilities dict yields [0, 0, 0]. -/
theorem risk_probability_defaults (b : Option BertOutput) (s : Option SentimentOutput)
    (context : Context) (probs : RiskProbs) :
    (_extract_features ⟨some ⟨some probs⟩, b, s⟩ context).take 3 =
      [probs.low.getD 0, probs.medium.getD 0, probs.high.getD 0] ∧
    (_extract_features ⟨some ⟨some ⟨none, none, none⟩⟩, b, s⟩ context).take 3 = [0, 0, 0] ∧
    (_extract_features ⟨none, b, s⟩ context).take 3 = [33/100, 33/100, 33/100] ∧
    (_extract_features ⟨some ⟨none⟩, b, s⟩ context).take 3 = [33/100, 33/100, 33/100] := by
  refine ⟨rfl, ?_, rfl, rfl⟩
  show [(none : Option ℚ).getD 0, (none : Option ℚ).getD 0, (none : Option ℚ).getD 0] = _
  rfl

/-- Claim C1: the recommendation function realizes the five-tier table,
evaluated first match first, with the stated boundary behaviour at 80, 70,
60 and 40. -/
theorem recommendation_tiers (score upper : ℚ) :
    (80 ≤ score →
      _generate_recommendation score upper =
        "PROCEED: Low risk. Follow standard travel precautions.") ∧
    (60 ≤ score → score < 80 → 70 ≤ upper →
      _generate_recommendation score upper =
        "PROCEED WITH CAUTION: Moderate risk. Extra precautions recommended.") ∧
    (60 ≤ score → score < 80 → upper < 70 →
      _generate_recommendation score upper =
        "CONSULT DOCTOR: Borderline risk. Medical consultation advised before travel.") ∧
    (40 ≤ score → score < 60 →
      _generate_recommendation score upper =
        "POSTPONE: High risk. Significant concerns detected. Consult healthcare provider.") ∧
    (score < 40 →
      _generate_recommendation score upper =
        "DO NOT TRAVEL: Critical risk. Travel strongly discouraged. Immediate medical attention required.") := by
  unfold _generate_recommendation
  refine ⟨?_, ?_, ?_, ?_, ?_⟩ <;> intros <;> split_ifs <;> first | rfl | linarith

/-- Witness for C1: the tier theorem applied at the boundary inputs
80, 79.99 with upper 70, 79.99 with upper 69.99, 59.99 and 39.99. -/
theorem recommendation_tiers_check :
    _generate_recommendation 80 90 =
      "PROCEED: Low risk. Follow standard travel precautions." ∧
    _generate_recommendation (7999/100) 70 =
      "PROCEED WITH CAUTION: Moderate risk. Extra precautions recommended." ∧
    _generate_recommendation (7999/100) (6999/100) =
      "CONSULT DOCTOR: Borderline risk. Medical consultation advised before travel." ∧
    _generate_recommendation (5999/100) (6999/100) =
      "POSTPONE: High risk. Significant concerns detected. Consult healthcare provider." ∧
    _generate_recommendation (3999/100) (4999/100) =
      "DO NOT TRAVEL: Critical risk. Travel strongly discouraged. Immediate medical attention required." :=
  ⟨(recommendation_tiers 80 90).1 (by norm_num),
   (recommendation_tiers (7999/100) 70).2.1 (by norm_num) (by norm_num) (by norm_num),
   (recommendation_tiers (7999/100) (6999/100)).2.2.1 (by norm_num) (by norm_num) (by norm_num),
   (recommendation_tiers (5999/100) (6999/100)).2.2.2.1 (by norm_num) (by norm_num),
   (recommendation_tiers (3999/100) (4999/100)).2.2.2.2 (by norm_num)⟩

/-- The loaded model state of `TravelHealthScoreModel`: the fitted scaler
(absent when `scaler.mean_` is unset), the three regressor slots (absent
when the corresponding artifact was not loaded), and the SHAP tree
attributor (absent when the primary model lacks `get_booster`). Each
opaque library call is a function that may raise, modelled as
`Except String`. -/
structure ModelState where
  scaler : Option (List ℚ → Except String (List ℚ))
  xgb_model : Option (List ℚ → Except String ℚ)
  lgb_model : Option (List ℚ → Except String ℚ)
  mlp_model : Option (List ℚ → Except String ℚ)
  shap_attributor : Option (List ℚ → Except String (List ℚ))

/-- Source lines 48-52: the fixed ensemble weight dict, read with
`.get(model_name, 0.0)`. -/
def ensemble_weights : String → ℚ
  | "xgb" => 1/2
  | "lgb" => 3/10
  | "mlp" => 1/5
  | _ => 0

/-- `np.clip(x, lo, hi)`. -/
def np_clip (x lo hi : ℚ) : ℚ := min (max x lo) hi

/-- Source lines 303-310: the fixed 17 feature names reported with SHAP
values. -/
def shap_feature_names : List String :=
  ["nb_low", "nb_medium", "nb_high",
   "symptom_count", "duration", "severity",
   "sentiment_fit", "sentiment_conf",
   "disease_prev", "weather_risk", "altitude", "air_quality",
   "age", "vaccination", "trip_duration",
   "nb_x_disease", "age_x_chronic"]

/-- The result dict of `predict_score` (source lines 280-291); the raw
per-slot predictions keep their insertion order xgb, lgb, mlp. -/
structure ScoreResult where
  score : ℚ
  uncertainty_lower : ℚ
  uncertainty_upper : ℚ
  confidence_interval : List ℚ
  recommendation : String
  model_ensemble : List (String × ℚ)
  shap_values : Option (List ℚ)
  feature_importance : Option (List String)
deriving DecidableEq

/-- Source lines 224-228: apply the scaler only when it carries fitted
statistics; otherwise pass the features through unchanged. -/
def scaled_features (st : ModelState) (X : List ℚ) : Except String (List ℚ) :=
  match st.scaler with
  | some transform => transform X
  | none => Except.ok X

/-- One slot of the ensemble (source lines 233-248): an unloaded slot
contributes nothing, a loaded slot contributes one named prediction, and a
raised library error propagates. -/
def slot_prediction (name : String) (model : Option (List ℚ → Except String ℚ))
    (X_scaled : List ℚ) : Except String (List (String × ℚ)) :=
  match model with
  | some m =>
    match m X_scaled with
    | Except.ok v => Except.ok [(name, v)]
    | Except.error e => Except.error e
  | none => Except.ok []

/-- Source lines 230-248: the three slots are queried in the fixed order
xgb, lgb, mlp; the first raised error aborts the prediction. -/
def slot_predictions (st : ModelState) (X_scaled : List ℚ) :
    Except String (List (String × ℚ)) :=
  match slot_prediction "xgb" st.xgb_model X_scaled with
  | Except.error e => Except.error e
  | Except.ok p1 =>
    match slot_prediction "lgb" st.lgb_model X_scaled with
    | Except.error e => Except.error e
    | Except.ok p2 =>
      match slot_prediction "mlp" st.mlp_model X_scaled with
      | Except.error e => Except.error e
      | Except.ok p3 => Except.ok (p1 ++ p2 ++ p3)

/-- Source lines 293-316, `_compute_shap_explanation`: absent attribution
capability or a raised attribution error both degrade to (None, None). -/
def _compute_shap_explanation (st : ModelState) (X : List ℚ) :
    Option (List ℚ) × Option (List String) :=
  match st.shap_attributor with
  | none => (none, none)
  | some attributor =>
    match attributor X with
    | Except.ok vals => (some vals, some shap_feature_names)
    | Except.error _ => (none, none)

/-- Source lines 266-273: SHAP is attempted only when the primary model is
loaded, and any failure is caught locally, leaving (None, None). -/
def shap_part (st : ModelState) (X_scaled : List ℚ) :
    Option (List ℚ) × Option (List String) :=
  match st.xgb_model with
  | some _ => _compute_shap_explanation st X_scaled
  | none => (none, none)

/-- Source lines 250-291: weighted ensemble over the collected
predictions (75 when none), clip to [0, 100], derive the fixed ±10 band
from the clipped score, and assemble the result dict. -/
def mk_score_result (st : ModelState) (predictions : List (String × ℚ))
    (X_scaled : List ℚ) : ScoreResult :=
  let ensemble_score : ℚ :=
    if predictions = [] then 75
    else (predictions.map (fun p => ensemble_weights p.1 * p.2)).sum
  let clipped := np_clip ensemble_score 0 100
  let shap := shap_part st X_scaled
  { score := clipped
    uncertainty_lower := clipped - 10
    uncertainty_upper := clipped + 10
    confidence_interval := [clipped - 10, clipped + 10]
    recommendation := _generate_recommendation clipped (clipped + 10)
    model_ensemble := predictions
    shap_values := shap.1
    feature_importance := shap.2 }

/-- Source lines 204-291, `TravelHealthScoreModel.predict_score`. The
ignored `return_uncertainty` flag of the source is dropped: the band is
always computed. -/
def predict_score (st : ModelState) (model_outputs : UpstreamOutputs)
    (context : Context) : Except String ScoreResult :=
  match scaled_features st (_extract_features model_outputs context) with
  | Except.error e => Except.error e
  | Except.ok X_scaled =>
    match slot_predictions st X_scaled with
    | Except.error e => Except.error e
    | Except.ok predictions => Except.ok (mk_score_result st predictions X_scaled)

/-- The `top_reasons` value handed to the caller: either a ranked list of
feature/impact pairs or a list of plain message strings (the source stores
both shapes in the same dict key). -/
inductive TopReasons where
  | pairs (reasons : List (String × ℚ)) : TopReasons
  | msgs (messages : List String) : TopReasons
deriving DecidableEq

/-- Source lines 393-411, `TravelScorePredictorService._extract_top_reasons`:
rank feature indices by absolute SHAP value (descending, stable), keep the
first `top_k`, and report each as a name/signed-impact pair. -/
def _extract_top_reasons (shap_values : List ℚ) (names : List String) (top_k : ℕ) :
    List (String × ℚ) :=
  if shap_values = [] ∨ names = [] then []
  else
    let shap_abs := shap_values.map (fun v => |v|)
    let top_indices :=
      (List.insertionSort (fun i j => shap_abs.getD j 0 ≤ shap_abs.getD i 0)
        (List.range shap_abs.length)).take top_k
    top_indices.map (fun idx =>
      (if idx < names.length then names.getD idx "" else "feature_" ++ toString idx,
       shap_values.getD idx 0))

/-- The caller-facing record of `predict_travel_score`. Dict keys that are
present only on one path (`model_version`, `model_ensemble`, `error`) are
`Option`; the wall-clock `timestamp` metadata is outside the embedding. -/
structure ScorePrediction where
  score : ℚ
  uncertainty_lower : ℚ
  uncertainty_upper : ℚ
  recommendation : String
  model_version : Option String
  model_ensemble : Option (List (String × ℚ))
  top_reasons : TopReasons
  error : Option String

/-- Source lines 343-391, `TravelScorePredictorService.predict_travel_score`:
wrap the three upstream outputs, run the pipeline, attach top reasons
(with a placeholder message when either SHAP list is missing or empty),
and convert any escaped error into the fixed neutral fallback record. -/
def predict_travel_score (st : ModelState) (nb_output : NbOutput)
    (bert_output : BertOutput) (sentiment_output : SentimentOutput)
    (context : Context) : ScorePrediction :=
  match predict_score st ⟨some nb_output, some bert_output, some sentiment_output⟩ context with
  | Except.ok result =>
    let top_reasons :=
      match result.shap_values, result.feature_importance with
      | some shap_values, some names =>
        if shap_values ≠ [] ∧ names ≠ [] then
          TopReasons.pairs (_extract_top_reasons shap_values names 3)
        else TopReasons.msgs ["Feature importance unavailable"]
      | _, _ => TopReasons.msgs ["Feature importance unavailable"]
    { score := result.score
      uncertainty_lower := result.uncertainty_lower
      uncertainty_upper := result.uncertainty_upper
      recommendation := result.recommendation
      model_version := some "3.0.1"
      model_ensemble := some result.model_ensemble
      top_reasons := top_reasons
      error := none }
  | Except.error e =>
    { score := 50
      uncertainty_lower := 40
      uncertainty_upper := 60
      recommendation := "Model error. Manual review required."
      model_version := none
      model_ensemble := none
      top_reasons := TopReasons.msgs ["Prediction failed - please retry"]
      error := some e }

/-- A state with no scaler, no regressor slot and no attribution. -/
def no_models_state : ModelState := ⟨none, none, none, none, none⟩

/-- An `NbOutput` that is an empty dict. -/
def empty_nb : NbOutput := ⟨none⟩

/-- A `BertOutput` that is an empty dict. -/
def empty_bert : BertOutput := ⟨none⟩

/-- A `SentimentOutput` that is an empty dict. -/
def empty_sentiment : SentimentOutput := ⟨none, none⟩

theorem np_clip_nonneg (x : ℚ) : 0 ≤ np_clip x 0 100 :=
  le_min (le_max_right x 0) (by norm_num)

theorem np_clip_le_hundred (x : ℚ) : np_clip x 0 100 ≤ 100 :=
  min_le_right _ _

theorem predict_score_ok_shape (st : ModelState) (model_outputs : UpstreamOutputs)
    (context : Context) (r : ScoreResult)
    (h : predict_score st model_outputs context = Except.ok r) :
    ∃ X_scaled predictions,
      scaled_features st (_extract_features model_outputs context) = Except.ok X_scaled ∧
      slot_predictions st X_scaled = Except.ok predictions ∧
      r = mk_score_result st predictions X_scaled := by
  unfold predict_score at h
  cases hs : scaled_features st (_extract_features model_outputs context) with
  | error e => rw [hs] at h; exact absurd h (by simp)
  | ok X_scaled =>
    rw [hs] at h
    dsimp only at h
    cases hp : slot_predictions st X_scaled with
    | error e => rw [hp] at h; exact absurd h (by simp)
    | ok predictions =>
      rw [hp] at h
      simp only [Except.ok.injEq] at h
      exact ⟨X_scaled, predictions, rfl, hp, h.symm⟩

theorem slot_prediction_entry_names (name : String)
    (model : Option (List ℚ → Except String ℚ)) (X_scaled : List ℚ)
    (p : List (String × ℚ)) (h : slot_prediction name model X_scaled = Except.ok p) :
    ∀ q ∈ p, q.1 = name := by
  unfold slot_prediction at h
  cases model with
  | none =>
    dsimp only at h
    simp only [Except.ok.injEq] at h
    subst h
    simp
  | some m =>
    dsimp only at h
    cases hm : m X_scaled with
    | error e => rw [hm] at h; exact absurd h (by simp)
    | ok v =>
      rw [hm] at h
      simp only [Except.ok.injEq] at h
      subst h
      simp

theorem slot_predictions_decompose (st : ModelState) (X_scaled : List ℚ)
    (predictions : List (String × ℚ))
    (h : slot_predictions st X_scaled = Except.ok predictions) :
    ∃ p1 p2 p3,
      slot_prediction "xgb" st.xgb_model X_scaled = Except.ok p1 ∧
      slot_prediction "lgb" st.lgb_model X_scaled = Except.ok p2 ∧
      slot_prediction "mlp" st.mlp_model X_scaled = Except.ok p3 ∧
      predictions = p1 ++ p2 ++ p3 := by
  unfold slot_predictions at h
  cases h1 : slot_prediction "xgb" st.xgb_model X_scaled with
  | error e => rw [h1] at h; exact absurd h (by simp)
  | ok p1 =>
    rw [h1] at h
    dsimp only at h
    cases h2 : slot_prediction "lgb" st.lgb_model X_scaled with
    | error e => rw [h2] at h; exact absurd h (by simp)
    | ok p2 =>
      rw [h2] at h
      dsimp only at h
      cases h3 : slot_prediction "mlp" st.mlp_model X_scaled with
      | error e => rw [h3] at h; exact absurd h (by simp)
      | ok p3 =>
        rw [h3] at h
        simp only [Except.ok.injEq] at h
        exact ⟨p1, p2, p3, rfl, rfl, rfl, h.symm⟩

theorem slot_predictions_names (st : ModelState) (X_scaled : List ℚ)
    (predictions : List (String × ℚ))
    (h : slot_predictions st X_scaled = Except.ok predictions) :
    (st.xgb_model = none → ∀ p ∈ predictions, p.1 ≠ "xgb") ∧
    (st.lgb_model = none → ∀ p ∈ predictions, p.1 ≠ "lgb") ∧
    (st.mlp_model = none → ∀ p ∈ predictions, p.1 ≠ "mlp") ∧
    (st.xgb_model = none → st.lgb_model = none → st.mlp_model = none →
      predictions = []) := by
  obtain ⟨p1, p2, p3, h1, h2, h3, hpred⟩ :=
    slot_predictions_decompose st X_scaled predictions h
  subst hpred
  have n1 := slot_prediction_entry_names "xgb" st.xgb_model X_scaled p1 h1
  have n2 := slot_prediction_entry_names "lgb" st.lgb_model X_scaled p2 h2
  have n3 := slot_prediction_entry_names "mlp" st.mlp_model X_scaled p3 h3
  have z1 : st.xgb_model = none → p1 = [] := by
    intro hx
    rw [hx] at h1
    simpa [slot_prediction] using h1.symm
  have z2 : st.lgb_model = none → p2 = [] := by
    intro hx
    rw [hx] at h2
    simpa [slot_prediction] using h2.symm
  have z3 : st.mlp_model = none → p3 = [] := by
    intro hx
    rw [hx] at h3
    simpa [slot_prediction] using h3.symm
  refine ⟨?_, ?_, ?_, ?_⟩
  · intro hx p hp
    rw [z1 hx] at hp
    simp only [List.nil_append, List.mem_append] at hp
    rcases hp with hp | hp
    · rw [n2 p hp]; simp
    · rw [n3 p hp]; simp
  · intro hx p hp
    rw [z2 hx] at hp
    simp only [List.append_nil, List.mem_append] at hp
    rcases hp with hp | hp
    · rw [n1 p hp]; simp
    · rw [n3 p hp]; simp
  · intro hx p hp
    rw [z3 hx] at hp
    simp only [List.append_nil, List.mem_append] at hp
    rcases hp with hp | hp
    · rw [n1 p hp]; simp
    · rw [n2 p hp]; simp
  · intro hx hl hm
    rw [z1 hx, z2 hl, z3 hm]
    rfl

theorem mk_score_result_fields (st : ModelState) (predictions : List (String × ℚ))
    (X_scaled : List ℚ) :
    (mk_score_result st predictions X_scaled).score =
      np_clip (if predictions = [] then (75 : ℚ)
        else (predictions.map (fun p => ensemble_weights p.1 * p.2)).sum) 0 100 ∧
    (mk_score_result st predictions X_scaled).uncertainty_lower =
      (mk_score_result st predictions X_scaled).score - 10 ∧
    (mk_score_result st predictions X_scaled).uncertainty_upper =
      (mk_score_result st predictions X_scaled).score + 10 ∧
    (mk_score_result st predictions X_scaled).model_ensemble = predictions ∧
    (mk_score_result st predictions X_scaled).shap_values = (shap_part st X_scaled).1 ∧
    (mk_score_result st predictions X_scaled).feature_importance = (shap_part st X_scaled).2 :=
  ⟨rfl, rfl, rfl, rfl, rfl, rfl⟩

/-- Claim C4: whenever `predict_score` returns a result, its score lies in
[0, 100]; it is the clip of 75 when the prediction list is empty and the
clip of the weighted sum (weights 0.50/0.30/0.20) otherwise; unloaded
slots contribute no entry at all, and with no slot loaded the prediction
list is empty, so the neutral 75 default is used. -/
theorem predict_score_ensemble_spec (st : ModelState) (model_outputs : UpstreamOutputs)
    (context : Context) (r : ScoreResult)
    (h : predict_score st model_outputs context = Except.ok r) :
    0 ≤ r.score ∧ r.score ≤ 100 ∧
    (r.model_ensemble = [] → r.score = np_clip 75 0 100 ∧ np_clip 75 0 100 = 75) ∧
    (r.model_ensemble ≠ [] →
      r.score =
        np_clip ((r.model_ensemble.map (fun p => ensemble_weights p.1 * p.2)).sum) 0 100) ∧
    ensemble_weights "xgb" = 1/2 ∧ ensemble_weights "lgb" = 3/10 ∧
    ensemble_weights "mlp" = 1/5 ∧
    (st.xgb_model = none → ∀ p ∈ r.model_ensemble, p.1 ≠ "xgb") ∧
    (st.lgb_model = none → ∀ p ∈ r.model_ensemble, p.1 ≠ "lgb") ∧
    (st.mlp_model = none → ∀ p ∈ r.model_ensemble, p.1 ≠ "mlp") ∧
    (st.xgb_model = none → st.lgb_model = none → st.mlp_model = none →
      r.model_ensemble = []) := by
  obtain ⟨X_scaled, predictions, hs, hp, hr⟩ :=
    predict_score_ok_shape st model_outputs context r h
  obtain ⟨q1, q2, q3, q4⟩ := slot_predictions_names st X_scaled predictions hp
  subst hr
  obtain ⟨hscore, hlo, hup, hens, hsv, hfi⟩ :=
    mk_score_result_fields st predictions X_scaled
  refine ⟨?_, ?_, ?_, ?_, rfl, rfl, rfl, ?_, ?_, ?_, ?_⟩
  · rw [hscore]; exact np_clip_nonneg _
  · rw [hscore]; exact np_clip_le_hundred _
  · intro he
    rw [hens] at he
    rw [hscore, if_pos he]
    refine ⟨rfl, ?_⟩
    show min (max (75 : ℚ) 0) 100 = 75
    rw [max_eq_left (by norm_num : (0 : ℚ) ≤ 75), min_eq_left (by norm_num : (75 : ℚ) ≤ 100)]
  · intro hne
    rw [hens] at hne
    rw [hscore, if_neg hne, hens]
  · rw [hens]; exact q1
  · rw [hens]; exact q2
  · rw [hens]; exact q3
  · rw [hens]; exact q4

/-- Witness for C4: at a state with no loaded slot and fully absent
inputs, `predict_score` succeeds with the empty prediction list, and the
score is the clip of the neutral default 75. -/
theorem predict_score_ensemble_check :
    0 ≤ (mk_score_result no_models_state []
        (_extract_features empty_upstream empty_context)).score ∧
    (mk_score_result no_models_state []
        (_extract_features empty_upstream empty_context)).score = np_clip 75 0 100 ∧
    np_clip 75 0 100 = 75 := by
  have h := predict_score_ensemble_spec no_models_state empty_upstream empty_context
    (mk_score_result no_models_state [] (_extract_features empty_upstream empty_context)) rfl
  exact ⟨h.1, (h.2.2.1 rfl).1, (h.2.2.1 rfl).2⟩

/-- Claim C5: every successful prediction carries the fixed symmetric
band lower = score - 10, upper = score + 10, computed from the clipped
score and itself unclamped. -/
theorem uncertainty_band_spec (st : ModelState) (model_outputs : UpstreamOutputs)
    (context : Context) (r : ScoreResult)
    (h : predict_score st model_outputs context = Except.ok r) :
    r.uncertainty_lower = r.score - 10 ∧ r.uncertainty_upper = r.score + 10 := by
  obtain ⟨X_scaled, predictions, hs, hp, hr⟩ :=
    predict_score_ok_shape st model_outputs context r h
  subst hr
  exact ⟨(mk_score_result_fields st predictions X_scaled).2.1,
    (mk_score_result_fields st predictions X_scaled).2.2.1⟩

/-- A state whose only loaded slot predicts 300, so the pre-clip ensemble
score is 150 and the clipped score saturates at 100. -/
def high_model_state : ModelState :=
  ⟨none, some (fun _ => Except.ok 300), none, none, none⟩

/-- Witness for C5: with a clipped score of 100 the upper bound is 110,
outside [0, 100] — the band is not clamped. -/
theorem uncertainty_band_check :
    (mk_score_result high_model_state [("xgb", 300)]
        (_extract_features empty_upstream empty_context)).uncertainty_upper =
      (mk_score_result high_model_state [("xgb", 300)]
        (_extract_features empty_upstream empty_context)).score + 10 ∧
    (mk_score_result high_model_state [("xgb", 300)]
        (_extract_features empty_upstream empty_context)).score = 100 ∧
    (mk_score_result high_model_state [("xgb", 300)]
        (_extract_features empty_upstream empty_context)).uncertainty_upper = 110 := by
  have h := uncertainty_band_spec high_model_state empty_upstream empty_context
    (mk_score_result high_model_state [("xgb", 300)]
      (_extract_features empty_upstream empty_context)) rfl
  have hscore : (mk_score_result high_model_state [("xgb", 300)]
      (_extract_features empty_upstream empty_context)).score = 100 := by
    rw [(mk_score_result_fields high_model_state [("xgb", 300)]
      (_extract_features empty_upstream empty_context)).1]
    norm_num [np_clip, ensemble_weights, max_def, min_def]
  refine ⟨h.2, hscore, ?_⟩
  rw [h.2, hscore]
  norm_num

/-- Claim C6: every record handed to the caller — success or fallback —
satisfies lower ≤ score ≤ upper and 0 ≤ score ≤ 100. -/
theorem score_prediction_invariant (st : ModelState) (nb_output : NbOutput)
    (bert_output : BertOutput) (sentiment_output : SentimentOutput) (context : Context) :
    (predict_travel_score st nb_output bert_output sentiment_output context).uncertainty_lower ≤
      (predict_travel_score st nb_output bert_output sentiment_output context).score ∧
    (predict_travel_score st nb_output bert_output sentiment_output context).score ≤
      (predict_travel_score st nb_output bert_output sentiment_output context).uncertainty_upper ∧
    0 ≤ (predict_travel_score st nb_output bert_output sentiment_output context).score ∧
    (predict_travel_score st nb_output bert_output sentiment_output context).score ≤ 100 := by
  unfold predict_travel_score
  cases h : predict_score st ⟨some nb_output, some bert_output, some sentiment_output⟩ context with
  | error e =>
    dsimp only
    norm_num
  | ok r =>
    obtain ⟨X_scaled, predictions, hs, hp, hr⟩ :=
      predict_score_ok_shape st ⟨some nb_output, some bert_output, some sentiment_output⟩
        context r h
    subst hr
    obtain ⟨hscore, hlo, hup, hens, hsv, hfi⟩ :=
      mk_score_result_fields st predictions X_scaled
    dsimp only
    refine ⟨?_, ?_, ?_, ?_⟩
    · rw [hlo]; linarith [le_refl ((mk_score_result st predictions X_scaled).score)]
    · rw [hup]; linarith [le_refl ((mk_score_result st predictions X_scaled).score)]
    · rw [hscore]; exact np_clip_nonneg _
    · rw [hscore]; exact np_clip_le_hundred _

/-- Claim C7: a raised error anywhere in the pipeline never escapes
`predict_travel_score`; the caller gets exactly the neutral fallback
record (score 50, band [40, 60], manual-review recommendation, retry
message, populated error field), and the error field is populated on no
other path. -/
theorem pipeline_failure_fallback (st : ModelState) (nb_output : NbOutput)
    (bert_output : BertOutput) (sentiment_output : SentimentOutput) (context : Context) :
    (∀ e, predict_score st ⟨some nb_output, some bert_output, some sentiment_output⟩ context =
        Except.error e →
      predict_travel_score st nb_output bert_output sentiment_output context =
        { score := 50
          uncertainty_lower := 40
          uncertainty_upper := 60
          recommendation := "Model error. Manual review required."
          model_version := none
          model_ensemble := none
          top_reasons := TopReasons.msgs ["Prediction failed - please retry"]
          error := some e }) ∧
    (∀ r, predict_score st ⟨some nb_output, some bert_output, some sentiment_output⟩ context =
        Except.ok r →
      (predict_travel_score st nb_output bert_output sentiment_output context).error = none) := by
  constructor
  · intro e he
    unfold predict_travel_score
    rw [he]
  · intro r hr
    unfold predict_travel_score
    rw [hr]

/-- A state whose scaler raises, so the whole pipeline fails. -/
def failing_state : ModelState :=
  ⟨some (fun _ => Except.error "boom"), none, none, none, none⟩

/-- Witness for C7: a raising scaler produces exactly the fallback record
with the raised message in the error field, and a succeeding run has no
error value. -/
theorem pipeline_failure_check :
    predict_travel_score failing_state empty_nb empty_bert empty_sentiment empty_context =
      { score := 50
        uncertainty_lower := 40
        uncertainty_upper := 60
        recommendation := "Model error. Manual review required."
        model_version := none
        model_ensemble := none
        top_reasons := TopReasons.msgs ["Prediction failed - please retry"]
        error := some "boom" } ∧
    (predict_travel_score no_models_state empty_nb empty_bert empty_sentiment
      empty_context).error = none :=
  ⟨(pipeline_failure_fallback failing_state empty_nb empty_bert empty_sentiment
      empty_context).1 "boom" rfl,
   (pipeline_failure_fallback no_models_state empty_nb empty_bert empty_sentiment
      empty_context).2
      (mk_score_result no_models_state []
        (_extract_features ⟨some empty_nb, some empty_bert, some empty_sentiment⟩
          empty_context)) rfl⟩

/-- Claim C9: inference is deterministic — identical model state, upstream
outputs and context give identical `predict_score` results (the embedding
is a pure function; the source draws no randomness at inference time). -/
theorem predict_score_deterministic (st1 st2 : ModelState) (mo1 mo2 : UpstreamOutputs)
    (c1 c2 : Context) (hst : st1 = st2) (hmo : mo1 = mo2) (hc : c1 = c2) :
    predict_score st1 mo1 c1 = predict_score st2 mo2 c2 := by
  subst hst
  subst hmo
  subst hc
  rfl

/-- Witness for C9: two identical calls at a concrete state and input. -/
theorem predict_score_deterministic_check :
    predict_score no_models_state empty_upstream empty_context =
      predict_score no_models_state empty_upstream empty_context :=
  predict_score_deterministic no_models_state no_models_state empty_upstream empty_upstream
    empty_context empty_context rfl rfl rfl

theorem getD_map_abs (l : List ℚ) (i : ℕ) :
    (l.map (fun v => |v|)).getD i 0 = |l.getD i 0| := by
  induction l generalizing i with
  | nil => simp
  | cons a t ih =>
    cases i with
    | zero => simp
    | succ n => simpa using ih n

theorem top_reasons_length_le (shap_values : List ℚ) (names : List String) :
    (_extract_top_reasons shap_values names 3).length ≤ 3 := by
  unfold _extract_top_reasons
  split_ifs with h
  · simp
  · simp only [List.length_map]
    exact List.length_take_le 3 _

theorem top_reasons_sorted (shap_values : List ℚ) (names : List String) :
    List.Sorted (fun a b : String × ℚ => |b.2| ≤ |a.2|)
      (_extract_top_reasons shap_values names 3) := by
  unfold _extract_top_reasons
  split_ifs with h
  · exact List.sorted_nil
  · dsimp only
    haveI hTot : IsTotal ℕ (fun i j : ℕ =>
        (shap_values.map (fun v => |v|)).getD j 0 ≤
          (shap_values.map (fun v => |v|)).getD i 0) :=
      ⟨fun a b => le_total _ _⟩
    haveI hTrans : IsTrans ℕ (fun i j : ℕ =>
        (shap_values.map (fun v => |v|)).getD j 0 ≤
          (shap_values.map (fun v => |v|)).getD i 0) :=
      ⟨fun a b c hab hbc => le_trans hbc hab⟩
    have hsorted := List.sorted_insertionSort (fun i j : ℕ =>
        (shap_values.map (fun v => |v|)).getD j 0 ≤
          (shap_values.map (fun v => |v|)).getD i 0)
      (List.range (shap_values.map (fun v => |v|)).length)
    have htake := List.Pairwise.sublist (List.take_sublist 3 _) hsorted
    refine List.pairwise_map.2 (htake.imp ?_)
    intro a b hab
    dsimp only
    rw [← getD_map_abs shap_values b, ← getD_map_abs shap_values a]
    exact hab

theorem top_reasons_impacts_mem (shap_values : List ℚ) (names : List String) :
    ∀ x ∈ _extract_top_reasons shap_values names 3, x.2 ∈ shap_values := by
  unfold _extract_top_reasons
  split_ifs with h
  · simp
  · intro x hx
    simp only [List.mem_map] at hx
    obtain ⟨idx, hidx, hfx⟩ := hx
    have hmem : idx ∈ List.range (shap_values.map (fun v => |v|)).length :=
      (List.perm_insertionSort _ _).subset (List.take_subset 3 _ hidx)
    have hlt : idx < shap_values.length := by
      simpa [List.length_map] using List.mem_range.1 hmem
    rw [← hfx]
    dsimp only
    rw [List.getD_eq_getElem?_getD, List.getElem?_eq_getElem hlt]
    exact List.getElem_mem hlt

/-- Claim C8, counterexample to the claim as stated: when attribution is
unavailable (no loaded primary model, hence no SHAP values), the caller's
top-reasons value is the one-element placeholder message list, not an
empty list. -/
theorem top_reasons_placeholder_counterexample :
    (predict_travel_score no_models_state empty_nb empty_bert empty_sentiment
      empty_context).top_reasons = TopReasons.msgs ["Feature importance unavailable"] ∧
    TopReasons.msgs ["Feature importance unavailable"] ≠ TopReasons.pairs [] ∧
    TopReasons.msgs ["Feature importance unavailable"] ≠ TopReasons.msgs [] := by
  refine ⟨rfl, by simp, by simp⟩

/-- Claim C8 as amended: the ranked top-reasons list has length at most 3,
is sorted by descending absolute impact with each signed impact taken
verbatim from the attribution values, and is empty for empty attribution
input; at the caller level, unavailable or empty attribution yields the
single placeholder message "Feature importance unavailable" instead of an
empty list. -/
theorem top_reasons_spec_amended (shap_values : List ℚ) (names : List String)
    (st : ModelState) (nb_output : NbOutput) (bert_output : BertOutput)
    (sentiment_output : SentimentOutput) (context : Context) :
    (_extract_top_reasons shap_values names 3).length ≤ 3 ∧
    List.Sorted (fun a b : String × ℚ => |b.2| ≤ |a.2|)
      (_extract_top_reasons shap_values names 3) ∧
    (∀ x ∈ _extract_top_reasons shap_values names 3, x.2 ∈ shap_values) ∧
    (shap_values = [] → _extract_top_reasons shap_values names 3 = []) ∧
    (names = [] → _extract_top_reasons shap_values names 3 = []) ∧
    (∀ r, predict_score st ⟨some nb_output, some bert_output, some sentiment_output⟩
        context = Except.ok r →
      (r.shap_values = none ∨ r.feature_importance = none ∨ r.shap_values = some [] ∨
        r.feature_importance = some []) →
      (predict_travel_score st nb_output bert_output sentiment_output context).top_reasons =
        TopReasons.msgs ["Feature importance unavailable"]) := by
  refine ⟨top_reasons_length_le shap_values names, top_reasons_sorted shap_values names,
    top_reasons_impacts_mem shap_values names, ?_, ?_, ?_⟩
  · intro he
    unfold _extract_top_reasons
    rw [if_pos (Or.inl he)]
  · intro he
    unfold _extract_top_reasons
    rw [if_pos (Or.inr he)]
  · intro r hok hdeg
    unfold predict_travel_score
    rw [hok]
    dsimp only
    rcases hdeg with h1 | h1 | h1 | h1
    · rw [h1]
    · rw [h1]
      cases hsv : r.shap_values <;> rfl
    · rw [h1]
      cases hfi : r.feature_importance with
      | none => rfl
      | some fn =>
        dsimp only
        rw [if_neg (by simp)]
    · rw [h1]
      cases hsv : r.shap_values with
      | none => rfl
      | some sv =>
        dsimp only
        rw [if_neg (by simp)]

/-- Witness for C8: the amended theorem applied at empty attribution
inputs and at a concrete state with no attribution capability. -/
theorem top_reasons_spec_check :
    _extract_top_reasons [] ["nb_low"] 3 = [] ∧
    _extract_top_reasons [(1 : ℚ)] [] 3 = [] ∧
    (predict_travel_score no_models_state empty_nb empty_bert empty_sentiment
      empty_context).top_reasons = TopReasons.msgs ["Feature importance unavailable"] := by
  have h1 := top_reasons_spec_amended [] ["nb_low"] no_models_state empty_nb empty_bert
    empty_sentiment empty_context
  have h2 := top_reasons_spec_amended [(1 : ℚ)] [] no_models_state empty_nb empty_bert
    empty_sentiment empty_context
  refine ⟨h1.2.2.2.1 rfl, h2.2.2.2.2.1 rfl, ?_⟩
  exact h1.2.2.2.2.2
    (mk_score_result no_models_state []
      (_extract_features ⟨some empty_nb, some empty_bert, some empty_sentiment⟩
        empty_context)) rfl (Or.inl rfl)

end TravelShield
